import Mathlib

set_option maxHeartbeats 1000000
set_option maxRecDepth 8000

/-!
Verification of the solar zenith-angle pipeline (`modulus/utils/zenith_angle.py`).

The module is embedded shallowly: the calendar arithmetic of Python
`datetime` objects is modelled with exact integers (proleptic-Gregorian day
counts, microsecond resolution), and the numeric formula chain is modelled
over the exact real numbers.  Single/double-precision rounding of the
floating-point implementation is not modelled; tolerance claims are settled
for the exact-real value of the same formulas.
-/

namespace ZenithAngle

/-- Proleptic-Gregorian day count of a calendar date, normalised so that
1970-01-01 is day 0.  This embeds the day arithmetic performed by Python
`datetime` subtraction (`model_time - date_type(2000, 1, 1, 12, 0, 0)`). -/
def daysFromCivil (y m d : ℤ) : ℤ :=
  let y2 := if m ≤ 2 then y - 1 else y
  let era := Int.fdiv y2 400
  let yoe := y2 - era * 400
  let mp := (m + 9) % 12
  let doy := Int.fdiv (153 * mp + 2) 5 + d - 1
  let doe := yoe * 365 + Int.fdiv yoe 4 - Int.fdiv yoe 100 + doy
  era * 146097 + doe - 719468

/-- A Python `datetime.datetime`: calendar fields at microsecond resolution,
plus an optional fixed UTC offset in seconds (`none` models a naive
datetime, `some 0` models `tzinfo=pytz.utc`). -/
structure Datetime where
  year : ℤ
  month : ℤ
  day : ℤ
  hour : ℤ
  minute : ℤ
  second : ℤ
  microsecond : ℤ
  tzOffset : Option ℤ
deriving DecidableEq

/-- `model_time.replace(tzinfo=pytz.utc)`: keeps all wall-clock fields and
overwrites the timezone with UTC. -/
def replaceTzUtc (t : Datetime) : Datetime := { t with tzOffset := some 0 }

/-- Wall-clock seconds of the calendar fields since 1970-01-01T00:00:00,
ignoring any timezone information. -/
def wallSeconds (t : Datetime) : ℤ :=
  daysFromCivil t.year t.month t.day * 86400 + t.hour * 3600 + t.minute * 60 + t.second

/-- Wall-clock microseconds of the calendar fields since 1970-01-01T00:00:00. -/
def wallMicroseconds (t : Datetime) : ℤ := wallSeconds t * 1000000 + t.microsecond

/-- Microseconds since the UNIX epoch of the physical instant denoted by the
datetime: an aware datetime applies its UTC offset, a naive datetime is read
as UTC (the convention the specification adopts for naive inputs). -/
def instantMicroseconds (t : Datetime) : ℤ :=
  wallMicroseconds t - (t.tzOffset.getD 0) * 1000000

/-- UNIX epoch seconds of the physical instant denoted by the datetime. -/
noncomputable def epochSeconds (t : Datetime) : ℝ := (instantMicroseconds t : ℝ) / 1000000

/-- The reference epoch `datetime.datetime(2000, 1, 1, 12, 0, tzinfo=pytz.utc)`. -/
def datetime2000 : Datetime := ⟨2000, 1, 1, 12, 0, 0, 0, some 0⟩

/-- Python subtraction of two timezone-aware datetimes: the resulting
`timedelta`, in microseconds. -/
def awareDiffMicroseconds (a b : Datetime) : ℤ := instantMicroseconds a - instantMicroseconds b

/-- `_total_days`: a microsecond `timedelta` divided by one day
(`np.timedelta64(1, "D")`). -/
noncomputable def totalDays (timeDiffUs : ℤ) : ℝ := (timeDiffUs : ℝ) / 86400000000

/-- `_days_from_2000` on a scalar `datetime.datetime` input: replace the
timezone with UTC, subtract the reference epoch, and convert the timedelta
to days. -/
noncomputable def daysFrom2000 (t : Datetime) : ℝ :=
  totalDays (awareDiffMicroseconds (replaceTzUtc t) datetime2000)

/-- `_datetime_to_julian_century`. -/
noncomputable def datetimeToJulianCentury (t : Datetime) : ℝ := daysFrom2000 t / 36525

/-- Days elapsed from the reference epoch to the physical instant denoted by
`t`.  Modelled from the spec: this is the "elapsed wall-clock duration
(microsecond-resolution) to the reference epoch" of the input instant, the
quantity `_days_from_2000` is claimed to compute. -/
noncomputable def instantDaysFrom2000 (t : Datetime) : ℝ :=
  totalDays (instantMicroseconds t - instantMicroseconds datetime2000)

/-- An element of an array-like argument: either a `datetime.datetime` or a
plain number. -/
inductive PyElem where
  | dt (t : Datetime)
  | num (q : ℚ)
deriving DecidableEq

/-- The `model_time` argument of `_days_from_2000`: a scalar or an
array-like of elements (`np.asarray(...).ravel()` flattens nested input, so
an array is modelled by its flattened element list). -/
inductive PyTimeInput where
  | scalar (e : PyElem)
  | array (es : List PyElem)
deriving DecidableEq

/-- Exceptions the `_days_from_2000` type guard can raise. -/
inductive PyError where
  | valueError
  | indexError
deriving DecidableEq

/-- `np.asarray(model_time).ravel()[0]`: the first element of the flattened
input; indexing an empty array raises `IndexError`. -/
def ravelHead : PyTimeInput → Except PyError PyElem
  | .scalar e => .ok e
  | .array [] => .error .indexError
  | .array (e :: _) => .ok e

/-- Whether an element is a `datetime.datetime`. -/
def isDatetime : PyElem → Bool
  | .dt _ => true
  | .num _ => false

/-- The type guard of `_days_from_2000`: compute
`date_type = type(np.asarray(model_time).ravel()[0])` and raise `ValueError`
if `date_type not in [datetime.datetime]`. -/
def dateTypeGuard (x : PyTimeInput) : Except PyError Unit :=
  match ravelHead x with
  | .error e => .error e
  | .ok e => if isDatetime e then .ok () else .error .valueError

noncomputable section

/-- `np.deg2rad` (exact-real model of the degree-to-radian conversion). -/
def deg2rad (x : ℝ) : ℝ := x * (Real.pi / 180)

/-- `TIMESTAMP_2000 = datetime.datetime(2000, 1, 1, 12, 0, tzinfo=pytz.utc).timestamp()`. -/
def TIMESTAMP_2000 : ℝ := 946728000

/-- `_timestamp_to_julian_century`. -/
def timestampToJulianCentury (timestamp : ℝ) : ℝ :=
  (timestamp - TIMESTAMP_2000) / 36525 / 86400

/-- Python float `%`: floor-based remainder, `a - b * floor(a / b)`. -/
def fmod (a b : ℝ) : ℝ := a - b * ⌊a / b⌋

/-- `_greenwich_mean_sidereal_time`. -/
def greenwichMeanSiderealTime (c : ℝ) : ℝ :=
  fmod (deg2rad ((67310.54841 +
    c * (876600 * 3600 + 8640184.812866 + c * (0.093104 - c * (6.2 * 10e-6)))) / 240))
    (2 * Real.pi)

/-- `_local_mean_sidereal_time`. -/
def localMeanSiderealTime (c lon : ℝ) : ℝ := greenwichMeanSiderealTime c + lon

/-- `_sun_ecliptic_longitude`. -/
def sunEclipticLongitude (c : ℝ) : ℝ :=
  let mean_anomaly := deg2rad (357.52910 + 35999.05030 * c -
    0.0001559 * c * c - 0.00000048 * c * c * c)
  let mean_longitude := deg2rad (280.46645 + 36000.76983 * c + 0.0003032 * c ^ 2)
  let d_l := deg2rad ((1.914600 - 0.004817 * c - 0.000014 * c ^ 2) * Real.sin mean_anomaly +
    (0.019993 - 0.000101 * c) * Real.sin (2 * mean_anomaly) +
    0.000290 * Real.sin (3 * mean_anomaly))
  mean_longitude + d_l

/-- `_obliquity_star`. -/
def obliquityStar (c : ℝ) : ℝ :=
  deg2rad (23 + 26 / 60 + 21.406 / 3600.0 -
    (46.836769 * c - 0.0001831 * c ^ 2 + 0.00200340 * c ^ 3 -
      0.576e-6 * c ^ 4 - 4.34e-8 * c ^ 5) / 3600.0)

/-- `np.arctan2 y x`: the argument of the point `(x, y)`, in `(-pi, pi]`. -/
def arctan2 (y x : ℝ) : ℝ := Complex.arg ⟨x, y⟩

/-- `_right_ascension_declination`: returns `(right_ascension, declination)`. -/
def rightAscensionDeclination (c : ℝ) : ℝ × ℝ :=
  let eps := obliquityStar c
  let eclon := sunEclipticLongitude c
  let x := Real.cos eclon
  let y := Real.cos eps * Real.sin eclon
  let z := Real.sin eps * Real.sin eclon
  let r := Real.sqrt (1 - z * z)
  (2 * arctan2 y (x + r), arctan2 z r)

/-- `_local_hour_angle`. -/
def localHourAngle (c lon ra : ℝ) : ℝ := localMeanSiderealTime c lon - ra

/-- `_star_cos_zenith`. -/
def starCosZenith (c lon lat : ℝ) : ℝ :=
  let rd := rightAscensionDeclination c
  Real.sin lat * Real.sin rd.2 +
    Real.cos lat * Real.cos rd.2 * Real.cos (localHourAngle c lon rd.1)

/-- `cos_zenith_angle` on a scalar `datetime.datetime`. -/
def cosZenithAngle (time : Datetime) (lon lat : ℝ) : ℝ :=
  starCosZenith (datetimeToJulianCentury time) (deg2rad lon) (deg2rad lat)

/-- `cos_zenith_angle_from_timestamp`. -/
def cosZenithAngleFromTimestamp (timestamp lon lat : ℝ) : ℝ :=
  starCosZenith (timestampToJulianCentury timestamp) (deg2rad lon) (deg2rad lat)

/-- The mean-anomaly polynomial of `_sun_ecliptic_longitude`, in degrees. -/
def maDeg (c : ℝ) : ℝ := 357.52910 + 35999.05030 * c - 0.0001559 * c * c -
  0.00000048 * c * c * c

/-- The mean-longitude polynomial of `_sun_ecliptic_longitude`, in degrees. -/
def mlDeg (c : ℝ) : ℝ := 280.46645 + 36000.76983 * c + 0.0003032 * c ^ 2

/-- The equation-of-center correction of `_sun_ecliptic_longitude`, in degrees. -/
def dlDeg (c : ℝ) : ℝ :=
  (1.914600 - 0.004817 * c - 0.000014 * c ^ 2) * Real.sin (deg2rad (maDeg c)) +
    (0.019993 - 0.000101 * c) * Real.sin (2 * deg2rad (maDeg c)) +
    0.000290 * Real.sin (3 * deg2rad (maDeg c))

/-- The obliquity polynomial of `_obliquity_star`, in degrees. -/
def obDeg (c : ℝ) : ℝ := 23 + 26 / 60 + 21.406 / 3600.0 -
  (46.836769 * c - 0.0001831 * c ^ 2 + 0.00200340 * c ^ 3 -
    0.576e-6 * c ^ 4 - 4.34e-8 * c ^ 5) / 3600.0

/-- Julian-century value produced by the calendar path for wall clock
2002-01-01T12:00:00 (731 days since the epoch). -/
def jcA : ℝ := 731 / 36525

/-- Julian-century value produced by the timestamp path for the physical
instant 2002-01-01T00:00:00 UTC (730.5 days since the epoch). -/
def jcB : ℝ := 1 / 50

/-- Degree-10 Taylor polynomial of the cosine. -/
def cosTaylorP (x : ℝ) : ℝ :=
  1 - x ^ 2 / 2 + x ^ 4 / 24 - x ^ 6 / 720 + x ^ 8 / 40320 - x ^ 10 / 3628800

/-- Degree-11 Taylor polynomial of the sine. -/
def sinTaylorP (x : ℝ) : ℝ :=
  x - x ^ 3 / 6 + x ^ 5 / 120 - x ^ 7 / 5040 + x ^ 9 / 362880 - x ^ 11 / 39916800

end

/-! ### Basic facts about the embedding -/

lemma wallMicroseconds_datetime2000 : wallMicroseconds datetime2000 = 946728000000000 := by
  decide

lemma fmod_nonneg_of_pos (a b : ℝ) (hb : 0 < b) : 0 ≤ fmod a b := by
  have h1 : fmod a b = b * Int.fract (a / b) := by
    rw [fmod, Int.fract]
    field_simp
  rw [h1]
  exact mul_nonneg hb.le (Int.fract_nonneg _)

lemma fmod_lt_of_pos (a b : ℝ) (hb : 0 < b) : fmod a b < b := by
  have h1 : fmod a b = b * Int.fract (a / b) := by
    rw [fmod, Int.fract]
    field_simp
  rw [h1]
  calc b * Int.fract (a / b) < b * 1 := by
        exact (mul_lt_mul_left hb).2 (Int.fract_lt_one _)
    _ = b := mul_one b

/-! ### C2: the zenith combiner formula -/

/-- C2: for every julian-century value, longitude and latitude (radians),
`_star_cos_zenith` returns exactly
`sin(lat)*sin(dec) + cos(lat)*cos(dec)*cos(h)` where `dec` is the computed
declination and `h` is the local hour angle `LMST(c, lon) - ra`; no clamping
to `[-1, 1]` is applied to the result. -/
theorem star_cos_zenith_formula_no_clamp (c lon lat : ℝ) :
    starCosZenith c lon lat =
      Real.sin lat * Real.sin (rightAscensionDeclination c).2 +
        Real.cos lat * Real.cos (rightAscensionDeclination c).2 *
          Real.cos (localMeanSiderealTime c lon - (rightAscensionDeclination c).1) ∧
    localHourAngle c lon (rightAscensionDeclination c).1 =
      localMeanSiderealTime c lon - (rightAscensionDeclination c).1 :=
  ⟨rfl, rfl⟩

/-! ### C3: Greenwich mean sidereal time -/

/-- C3: for every julian-century value `c` (negative values included), GMST
is the cubic polynomial
`67310.54841 + c*(876600*3600 + 8640184.812866 + c*(0.093104 - c*6.2e-5))`
divided by 240 to get degrees, converted to radians, and reduced modulo
`2*pi` into `[0, 2*pi)`. -/
theorem gmst_cubic_polynomial_mod_two_pi (c : ℝ) :
    greenwichMeanSiderealTime c =
      fmod (deg2rad ((67310.54841 + c * (876600 * 3600 + 8640184.812866 +
        c * (0.093104 - c * 6.2e-5))) / 240)) (2 * Real.pi) ∧
    0 ≤ greenwichMeanSiderealTime c ∧ greenwichMeanSiderealTime c < 2 * Real.pi := by
  have h62 : (6.2 * 10e-6 : ℝ) = 6.2e-5 := by norm_num
  have h2pi : (0 : ℝ) < 2 * Real.pi := by positivity
  refine ⟨by rw [greenwichMeanSiderealTime, h62], ?_, ?_⟩
  · exact fmod_nonneg_of_pos _ _ h2pi
  · exact fmod_lt_of_pos _ _ h2pi

/-! ### C6: the combined value is a cosine in [-1, 1] -/

lemma combiner_abs_le_one (a b h : ℝ) :
    -1 ≤ Real.sin a * Real.sin b + Real.cos a * Real.cos b * Real.cos h ∧
      Real.sin a * Real.sin b + Real.cos a * Real.cos b * Real.cos h ≤ 1 := by
  have pa := Real.sin_sq_add_cos_sq a
  have pb := Real.sin_sq_add_cos_sq b
  have hc1 : (0 : ℝ) ≤ 1 - Real.cos h := by linarith [Real.cos_le_one h]
  have hc2 : (0 : ℝ) ≤ 1 + Real.cos h := by linarith [Real.neg_one_le_cos h]
  constructor
  · nlinarith [mul_nonneg hc2 (by positivity :
        (0:ℝ) ≤ (Real.sin a + Real.sin b) ^ 2 + (Real.cos a + Real.cos b) ^ 2),
      mul_nonneg hc1 (by positivity :
        (0:ℝ) ≤ (Real.sin a - Real.sin b) ^ 2 + (Real.cos a - Real.cos b) ^ 2)]
  · nlinarith [mul_nonneg hc2 (by positivity :
        (0:ℝ) ≤ (Real.sin a - Real.sin b) ^ 2 + (Real.cos a - Real.cos b) ^ 2),
      mul_nonneg hc1 (by positivity :
        (0:ℝ) ≤ (Real.sin a + Real.sin b) ^ 2 + (Real.cos a + Real.cos b) ^ 2)]

/-- C6: for all real latitude, declination and hour angle, the combined
value `sin(lat)*sin(dec) + cos(lat)*cos(dec)*cos(h)` lies in `[-1, 1]` (in
exact real arithmetic), and consequently the outputs of both public entry
points lie in `[-1, 1]`. -/
theorem cos_zenith_output_in_Icc :
    (∀ lat dec h : ℝ,
      Real.sin lat * Real.sin dec + Real.cos lat * Real.cos dec * Real.cos h ∈
        Set.Icc (-1 : ℝ) 1) ∧
    (∀ (t : Datetime) (lon lat : ℝ), cosZenithAngle t lon lat ∈ Set.Icc (-1 : ℝ) 1) ∧
    (∀ s lon lat : ℝ, cosZenithAngleFromTimestamp s lon lat ∈ Set.Icc (-1 : ℝ) 1) := by
  have key : ∀ lat dec h : ℝ,
      Real.sin lat * Real.sin dec + Real.cos lat * Real.cos dec * Real.cos h ∈
        Set.Icc (-1 : ℝ) 1 := by
    intro lat dec h
    exact ⟨(combiner_abs_le_one lat dec h).1, (combiner_abs_le_one lat dec h).2⟩
  exact ⟨key, fun t lon lat => key _ _ _, fun s lon lat => key _ _ _⟩

/-! ### C4: the calendar-timestamp time normalization -/

/-- C4 counterexample: for the aware datetime 2002-01-01T13:00:00+01:00
(whose physical instant is 2002-01-01T12:00:00 UTC, exactly 731 days after
the epoch), `_days_from_2000` does not compute the elapsed duration from the
input instant to the reference epoch: the attached offset is discarded, not
normalized, and the result is 731 + 1/24 days instead of 731. -/
theorem days_from_2000_not_instant_elapsed :
    daysFrom2000 ⟨2002, 1, 1, 13, 0, 0, 0, some 3600⟩ ≠
      instantDaysFrom2000 ⟨2002, 1, 1, 13, 0, 0, 0, some 3600⟩ := by
  have h1 : daysFromCivil 2002 1 1 = 11688 := by decide
  have h2 : daysFromCivil 2000 1 1 = 10957 := by decide
  simp only [daysFrom2000, instantDaysFrom2000, totalDays, awareDiffMicroseconds,
    replaceTzUtc, instantMicroseconds, wallMicroseconds, wallSeconds, datetime2000,
    h1, h2, Option.getD]
  norm_num

/-- C4 (amended): the calendar-timestamp path replaces the timezone with UTC
(reading the wall-clock fields as UTC rather than normalizing the instant),
computes the microsecond-resolution duration between those wall-clock fields
and the reference epoch, divides by one day (86400000000 microseconds) to
get days and by 36525.0 to get Julian centuries; the days value for
2002-01-01T12:00:00 UTC is exactly 731.0. -/
theorem days_from_2000_wall_clock_chain :
    (∀ t : Datetime,
      daysFrom2000 t =
        ((wallMicroseconds t - wallMicroseconds datetime2000 : ℤ) : ℝ) / 86400000000 ∧
      datetimeToJulianCentury t = daysFrom2000 t / 36525) ∧
    daysFrom2000 ⟨2002, 1, 1, 12, 0, 0, 0, some 0⟩ = 731 ∧
    daysFrom2000 ⟨2002, 1, 1, 12, 0, 0, 0, none⟩ = 731 := by
  have h1 : daysFromCivil 2002 1 1 = 11688 := by decide
  have h2 : daysFromCivil 2000 1 1 = 10957 := by decide
  refine ⟨fun t => ⟨?_, rfl⟩, ?_, ?_⟩
  · simp only [daysFrom2000, totalDays, awareDiffMicroseconds, replaceTzUtc,
      instantMicroseconds, wallMicroseconds, wallSeconds, datetime2000, Option.getD]
    norm_num
  · simp only [daysFrom2000, totalDays, awareDiffMicroseconds, replaceTzUtc,
      instantMicroseconds, wallMicroseconds, wallSeconds, datetime2000, h1, h2,
      Option.getD]
    norm_num
  · simp only [daysFrom2000, totalDays, awareDiffMicroseconds, replaceTzUtc,
      instantMicroseconds, wallMicroseconds, wallSeconds, datetime2000, h1, h2,
      Option.getD]
    norm_num

/-! ### C5 and C10: the date-type guard -/

/-- C5 counterexample: an array whose element type is not (uniformly) a
calendar-timestamp type — it contains a float next to a datetime — passes
the guard without any error, because only the first flattened element is
inspected.  So the invalid-input-type error is not raised exactly when an
array with a non-calendar-timestamp element type is passed. -/
theorem date_type_guard_mixed_array_passes :
    (¬ ∀ e ∈ [PyElem.dt ⟨2002, 1, 1, 12, 0, 0, 0, none⟩, PyElem.num 0],
      isDatetime e = true) ∧
    dateTypeGuard (.array [.dt ⟨2002, 1, 1, 12, 0, 0, 0, none⟩, .num 0]) = .ok () := by
  exact ⟨by decide, rfl⟩

/-- C5 (amended): the guard raises the invalid-input-type `ValueError` exactly
when the first element of the flattened input exists and is not a
`datetime.datetime` (regardless of the remaining elements); an empty array
instead raises an `IndexError`.  No other stage of the pipeline raises a
validated error (every other stage is a total numeric function). -/
theorem date_type_guard_value_error_iff :
    (∀ x : PyTimeInput, dateTypeGuard x = .error .valueError ↔
      ∃ e, ravelHead x = .ok e ∧ isDatetime e = false) ∧
    dateTypeGuard (.array []) = .error .indexError := by
  refine ⟨fun x => ?_, rfl⟩
  cases x with
  | scalar e => cases e <;> simp [dateTypeGuard, ravelHead, isDatetime]
  | array es =>
    cases es with
    | nil => simp [dateTypeGuard, ravelHead]
    | cons e es => cases e <;> simp [dateTypeGuard, ravelHead, isDatetime]

/-- C10: the guard inspects only the first element of the flattened array:
any array whose first flattened element is a datetime passes regardless of
the remaining elements' types, and the empty array raises an `IndexError`
(not the documented invalid-input-type `ValueError`). -/
theorem date_type_guard_first_element_only :
    (∀ (t : Datetime) (es : List PyElem),
      dateTypeGuard (.array (.dt t :: es)) = .ok ()) ∧
    dateTypeGuard (.array []) = .error .indexError ∧
    dateTypeGuard (.array []) ≠ .error .valueError := by
  exact ⟨fun t es => rfl, rfl, by simp [dateTypeGuard, ravelHead]⟩

/-! ### C9: ranges of right ascension and declination -/

lemma ra_eq (c : ℝ) :
    (rightAscensionDeclination c).1 =
      2 * arctan2 (Real.cos (obliquityStar c) * Real.sin (sunEclipticLongitude c))
        (Real.cos (sunEclipticLongitude c) +
          Real.sqrt (1 - Real.sin (obliquityStar c) * Real.sin (sunEclipticLongitude c) *
            (Real.sin (obliquityStar c) * Real.sin (sunEclipticLongitude c)))) := rfl

lemma dec_eq (c : ℝ) :
    (rightAscensionDeclination c).2 =
      arctan2 (Real.sin (obliquityStar c) * Real.sin (sunEclipticLongitude c))
        (Real.sqrt (1 - Real.sin (obliquityStar c) * Real.sin (sunEclipticLongitude c) *
          (Real.sin (obliquityStar c) * Real.sin (sunEclipticLongitude c)))) := rfl

lemma one_sub_z_sq (e l : ℝ) :
    1 - Real.sin e * Real.sin l * (Real.sin e * Real.sin l) =
      Real.cos l ^ 2 + (Real.cos e * Real.sin l) ^ 2 := by
  linear_combination (-1 : ℝ) * Real.sin_sq_add_cos_sq l -
    Real.sin l ^ 2 * Real.sin_sq_add_cos_sq e

lemma arctan2_abs_le_pi_div_two {y x : ℝ} (hx : 0 ≤ x) :
    |arctan2 y x| ≤ Real.pi / 2 :=
  Complex.abs_arg_le_pi_div_two_iff.2 hx

/-- C9: whenever the intermediate `z = sin(obliquity)*sin(ecliptic_longitude)`
has `|z| ≤ 1`, the declination `atan2(z, sqrt(1 - z*z))` lies in
`[-pi/2, pi/2]` (the second component being exactly that expression), and
the right ascension `2*atan2(y, x + r)` lies in `(-pi, pi]`. -/
theorem right_ascension_declination_ranges (c : ℝ)
    (h : |Real.sin (obliquityStar c) * Real.sin (sunEclipticLongitude c)| ≤ 1) :
    -(Real.pi / 2) ≤ (rightAscensionDeclination c).2 ∧
    (rightAscensionDeclination c).2 ≤ Real.pi / 2 ∧
    -Real.pi < (rightAscensionDeclination c).1 ∧
    (rightAscensionDeclination c).1 ≤ Real.pi := by
  have hx2 : ∀ u v : ℝ, (Complex.mk u v).re = u := fun u v => rfl
  set sl := Real.sin (sunEclipticLongitude c)
  set cl := Real.cos (sunEclipticLongitude c)
  set se := Real.sin (obliquityStar c)
  set ce := Real.cos (obliquityStar c)
  have hzsq : 1 - se * sl * (se * sl) = cl ^ 2 + (ce * sl) ^ 2 :=
    one_sub_z_sq (obliquityStar c) (sunEclipticLongitude c)
  have hrnn : 0 ≤ Real.sqrt (1 - se * sl * (se * sl)) := Real.sqrt_nonneg _
  have hdec2 := arctan2_abs_le_pi_div_two
    (y := se * sl) (x := Real.sqrt (1 - se * sl * (se * sl))) hrnn
  have hrge : |cl| ≤ Real.sqrt (1 - se * sl * (se * sl)) := by
    rw [hzsq]
    calc |cl| = Real.sqrt (cl ^ 2) := (Real.sqrt_sq_eq_abs cl).symm
      _ ≤ Real.sqrt (cl ^ 2 + (ce * sl) ^ 2) :=
          Real.sqrt_le_sqrt (le_add_of_nonneg_right (sq_nonneg _))
  have hxr : 0 ≤ cl + Real.sqrt (1 - se * sl * (se * sl)) := by
    have := abs_le.mp hrge
    linarith [this.1]
  have hra2 := arctan2_abs_le_pi_div_two
    (y := ce * sl) (x := cl + Real.sqrt (1 - se * sl * (se * sl))) hxr
  have hra_ne : arctan2 (ce * sl) (cl + Real.sqrt (1 - se * sl * (se * sl))) ≠
      -(Real.pi / 2) := by
    intro hco
    have hreim := Complex.arg_eq_neg_pi_div_two_iff.1 hco
    have hre : cl + Real.sqrt (1 - se * sl * (se * sl)) = 0 := hreim.1
    have him : ce * sl < 0 := hreim.2
    have hrval : Real.sqrt (1 - se * sl * (se * sl)) = -cl := by linarith
    have hsq : 1 - se * sl * (se * sl) = cl ^ 2 := by
      have h0 : 0 ≤ 1 - se * sl * (se * sl) := by rw [hzsq]; positivity
      calc 1 - se * sl * (se * sl) = Real.sqrt (1 - se * sl * (se * sl)) ^ 2 :=
            (Real.sq_sqrt h0).symm
        _ = (-cl) ^ 2 := by rw [hrval]
        _ = cl ^ 2 := by ring
    have : (ce * sl) ^ 2 = 0 := by linarith [hzsq]
    have : ce * sl = 0 := by
      exact pow_eq_zero_iff (n := 2) (by norm_num) |>.mp this
    linarith
  rw [dec_eq, ra_eq]
  have hd := abs_le.mp hdec2
  have hr := abs_le.mp hra2
  refine ⟨hd.1, hd.2, ?_, by linarith [hr.2]⟩
  rcases lt_or_eq_of_le hr.1 with hlt | heq
  · linarith
  · exact absurd heq.symm hra_ne

/-- C9 witness: the hypothesis holds and the ranges follow at the
julian-century value 0. -/
theorem right_ascension_declination_ranges_witness :
    |Real.sin (obliquityStar 0) * Real.sin (sunEclipticLongitude 0)| ≤ 1 ∧
    (-(Real.pi / 2) ≤ (rightAscensionDeclination 0).2 ∧
     (rightAscensionDeclination 0).2 ≤ Real.pi / 2 ∧
     -Real.pi < (rightAscensionDeclination 0).1 ∧
     (rightAscensionDeclination 0).1 ≤ Real.pi) := by
  have h : |Real.sin (obliquityStar 0) * Real.sin (sunEclipticLongitude 0)| ≤ 1 := by
    rw [abs_mul]
    calc |Real.sin (obliquityStar 0)| * |Real.sin (sunEclipticLongitude 0)| ≤ 1 * 1 :=
          mul_le_mul (Real.abs_sin_le_one _) (Real.abs_sin_le_one _) (abs_nonneg _)
            zero_le_one
      _ = 1 := mul_one 1
  exact ⟨h, right_ascension_declination_ranges 0 h⟩

/-! ### C1: agreement of the two entry points -/

lemma julian_century_agree (t : Datetime)
    (h : t.tzOffset = none ∨ t.tzOffset = some 0) :
    timestampToJulianCentury (epochSeconds t) = datetimeToJulianCentury t := by
  have hoff : t.tzOffset.getD 0 = 0 := by rcases h with h | h <;> simp [h]
  have h1 : instantMicroseconds (replaceTzUtc t) = wallMicroseconds t := by
    simp [instantMicroseconds, replaceTzUtc, wallMicroseconds, wallSeconds]
  have h2 : instantMicroseconds t = wallMicroseconds t := by
    rw [instantMicroseconds, hoff]; ring
  have h3 : (instantMicroseconds datetime2000 : ℤ) = 946728000000000 := by decide
  simp only [timestampToJulianCentury, epochSeconds, datetimeToJulianCentury,
    daysFrom2000, totalDays, awareDiffMicroseconds, TIMESTAMP_2000, h1, h2, h3]
  push_cast
  ring

/-- C1 (amended): for every calendar timestamp that is naive or carries the
UTC offset zero, `cos_zenith_angle` and `cos_zenith_angle_from_timestamp`
applied to the equivalent UNIX epoch seconds agree (exactly, in exact real
arithmetic, hence within 1e-6).  For aware timestamps with a non-UTC offset
the two paths can disagree, because the calendar path discards the offset. -/
theorem entry_points_agree_on_utc_inputs (t : Datetime) (lon lat : ℝ)
    (h : t.tzOffset = none ∨ t.tzOffset = some 0) :
    |cosZenithAngle t lon lat - cosZenithAngleFromTimestamp (epochSeconds t) lon lat| ≤
      1e-6 := by
  rw [cosZenithAngle, cosZenithAngleFromTimestamp, julian_century_agree t h]
  simp
  norm_num

/-- C1 witness: the agreement theorem applied to the naive doctest
timestamp 2002-01-01T12:00:00. -/
theorem entry_points_agree_on_utc_inputs_witness :
    ((⟨2002, 1, 1, 12, 0, 0, 0, none⟩ : Datetime).tzOffset = none ∨
      (⟨2002, 1, 1, 12, 0, 0, 0, none⟩ : Datetime).tzOffset = some 0) ∧
    |cosZenithAngle ⟨2002, 1, 1, 12, 0, 0, 0, none⟩ 120 360 -
      cosZenithAngleFromTimestamp (epochSeconds ⟨2002, 1, 1, 12, 0, 0, 0, none⟩) 120 360| ≤
      1e-6 :=
  ⟨Or.inl rfl, entry_points_agree_on_utc_inputs _ 120 360 (Or.inl rfl)⟩

/-! ### Taylor-series bounds for sine and cosine

The doctest claim C7 and the counterexample for C1 require certified
numeric evaluation of the pipeline.  The bounds below are derived from
`Complex.exp_bound` at order 12. -/

lemma sum12_add (x : ℝ) :
    (∑ m ∈ Finset.range 12, ((x : ℂ) * Complex.I) ^ m / m.factorial) +
      ∑ m ∈ Finset.range 12, (-(x : ℂ) * Complex.I) ^ m / m.factorial =
      2 * ((1 : ℂ) - x ^ 2 / 2 + x ^ 4 / 24 - x ^ 6 / 720 + x ^ 8 / 40320 -
        x ^ 10 / 3628800) := by
  have h2 : (Complex.I) ^ 2 = -1 := Complex.I_sq
  have h3 : (Complex.I) ^ 3 = -Complex.I := by rw [pow_succ, h2]; ring
  have h4 : (Complex.I) ^ 4 = 1 := by rw [pow_succ, h3]; simp [Complex.I_mul_I]
  have h5 : (Complex.I) ^ 5 = Complex.I := by rw [pow_succ, h4]; ring
  have h6 : (Complex.I) ^ 6 = -1 := by rw [pow_succ, h5, Complex.I_mul_I]
  have h7 : (Complex.I) ^ 7 = -Complex.I := by rw [pow_succ, h6]; ring
  have h8 : (Complex.I) ^ 8 = 1 := by rw [pow_succ, h7]; simp [Complex.I_mul_I]
  have h9 : (Complex.I) ^ 9 = Complex.I := by rw [pow_succ, h8]; ring
  have h10 : (Complex.I) ^ 10 = -1 := by rw [pow_succ, h9, Complex.I_mul_I]
  have h11 : (Complex.I) ^ 11 = -Complex.I := by rw [pow_succ, h10]; ring
  have h12 : (Complex.I) ^ 12 = 1 := by rw [pow_succ, h11]; simp [Complex.I_mul_I]
  simp only [Finset.sum_range_succ, Finset.sum_range_zero, Nat.factorial]
  push_cast
  ring_nf
  simp only [h2, h3, h4, h5, h6, h7, h8, h9, h10, h11, h12]
  ring

lemma sum12_sub (x : ℝ) :
    ((∑ m ∈ Finset.range 12, (-(x : ℂ) * Complex.I) ^ m / m.factorial) -
      ∑ m ∈ Finset.range 12, ((x : ℂ) * Complex.I) ^ m / m.factorial) * Complex.I =
      2 * ((x : ℂ) - x ^ 3 / 6 + x ^ 5 / 120 - x ^ 7 / 5040 + x ^ 9 / 362880 -
        x ^ 11 / 39916800) := by
  have h2 : (Complex.I) ^ 2 = -1 := Complex.I_sq
  have h3 : (Complex.I) ^ 3 = -Complex.I := by rw [pow_succ, h2]; ring
  have h4 : (Complex.I) ^ 4 = 1 := by rw [pow_succ, h3]; simp [Complex.I_mul_I]
  have h5 : (Complex.I) ^ 5 = Complex.I := by rw [pow_succ, h4]; ring
  have h6 : (Complex.I) ^ 6 = -1 := by rw [pow_succ, h5, Complex.I_mul_I]
  have h7 : (Complex.I) ^ 7 = -Complex.I := by rw [pow_succ, h6]; ring
  have h8 : (Complex.I) ^ 8 = 1 := by rw [pow_succ, h7]; simp [Complex.I_mul_I]
  have h9 : (Complex.I) ^ 9 = Complex.I := by rw [pow_succ, h8]; ring
  have h10 : (Complex.I) ^ 10 = -1 := by rw [pow_succ, h9, Complex.I_mul_I]
  have h11 : (Complex.I) ^ 11 = -Complex.I := by rw [pow_succ, h10]; ring
  have h12 : (Complex.I) ^ 12 = 1 := by rw [pow_succ, h11]; simp [Complex.I_mul_I]
  simp only [Finset.sum_range_succ, Finset.sum_range_zero, Nat.factorial]
  push_cast
  ring_nf
  simp only [h2, h3, h4, h5, h6, h7, h8, h9, h10, h11, h12]
  ring

lemma cos_taylor12 {x : ℝ} (hx : |x| ≤ 1) :
    |Real.cos x - cosTaylorP x| ≤ |x| ^ 12 * (13 / 5748019200) := by
  have habs1 : Complex.abs ((x : ℂ) * Complex.I) = |x| := by
    rw [map_mul, Complex.abs_I, mul_one, Complex.abs_ofReal]
  have habs2 : Complex.abs (-(x : ℂ) * Complex.I) = |x| := by
    rw [neg_mul, Complex.abs.map_neg, map_mul, Complex.abs_I, mul_one, Complex.abs_ofReal]
  have hx1 : Complex.abs ((x : ℂ) * Complex.I) ≤ 1 := by rw [habs1]; exact hx
  have hx2 : Complex.abs (-(x : ℂ) * Complex.I) ≤ 1 := by rw [habs2]; exact hx
  have e1 := @Complex.exp_bound ((x : ℂ) * Complex.I) hx1 12 (by norm_num)
  have e2 := @Complex.exp_bound (-(x : ℂ) * Complex.I) hx2 12 (by norm_num)
  have hsum := sum12_add x
  calc |Real.cos x - cosTaylorP x|
      = Complex.abs (Complex.cos x -
          ((1 : ℂ) - x ^ 2 / 2 + x ^ 4 / 24 - x ^ 6 / 720 + x ^ 8 / 40320 -
            x ^ 10 / 3628800)) := by
        rw [← Complex.abs_ofReal]
        congr 1
        rw [cosTaylorP]
        push_cast [Complex.ofReal_cos]
        ring
    _ = Complex.abs (((Complex.exp ((x : ℂ) * Complex.I) -
          ∑ m ∈ Finset.range 12, ((x : ℂ) * Complex.I) ^ m / m.factorial) +
          (Complex.exp (-(x : ℂ) * Complex.I) -
          ∑ m ∈ Finset.range 12, (-(x : ℂ) * Complex.I) ^ m / m.factorial)) / 2) := by
        congr 1
        rw [Complex.cos]
        linear_combination hsum / 2
    _ ≤ Complex.abs ((Complex.exp ((x : ℂ) * Complex.I) -
          ∑ m ∈ Finset.range 12, ((x : ℂ) * Complex.I) ^ m / m.factorial) / 2) +
          Complex.abs ((Complex.exp (-(x : ℂ) * Complex.I) -
          ∑ m ∈ Finset.range 12, (-(x : ℂ) * Complex.I) ^ m / m.factorial) / 2) := by
        rw [add_div]
        exact Complex.abs.add_le _ _
    _ = Complex.abs (Complex.exp ((x : ℂ) * Complex.I) -
          ∑ m ∈ Finset.range 12, ((x : ℂ) * Complex.I) ^ m / m.factorial) / 2 +
          Complex.abs (Complex.exp (-(x : ℂ) * Complex.I) -
          ∑ m ∈ Finset.range 12, (-(x : ℂ) * Complex.I) ^ m / m.factorial) / 2 := by
        simp [map_div₀]
    _ ≤ Complex.abs ((x : ℂ) * Complex.I) ^ 12 *
          (((12 : ℕ).succ : ℝ) * (((12 : ℕ).factorial : ℝ) * ((12 : ℕ) : ℝ))⁻¹) / 2 +
          Complex.abs (-(x : ℂ) * Complex.I) ^ 12 *
          (((12 : ℕ).succ : ℝ) * (((12 : ℕ).factorial : ℝ) * ((12 : ℕ) : ℝ))⁻¹) / 2 := by
        gcongr
    _ ≤ |x| ^ 12 * (13 / 5748019200) := by
        rw [habs1, habs2]
        norm_num [Nat.factorial]

lemma sin_taylor12 {x : ℝ} (hx : |x| ≤ 1) :
    |Real.sin x - sinTaylorP x| ≤ |x| ^ 12 * (13 / 5748019200) := by
  have habs1 : Complex.abs ((x : ℂ) * Complex.I) = |x| := by
    rw [map_mul, Complex.abs_I, mul_one, Complex.abs_ofReal]
  have habs2 : Complex.abs (-(x : ℂ) * Complex.I) = |x| := by
    rw [neg_mul, Complex.abs.map_neg, map_mul, Complex.abs_I, mul_one, Complex.abs_ofReal]
  have hx1 : Complex.abs ((x : ℂ) * Complex.I) ≤ 1 := by rw [habs1]; exact hx
  have hx2 : Complex.abs (-(x : ℂ) * Complex.I) ≤ 1 := by rw [habs2]; exact hx
  have e1 := @Complex.exp_bound ((x : ℂ) * Complex.I) hx1 12 (by norm_num)
  have e2 := @Complex.exp_bound (-(x : ℂ) * Complex.I) hx2 12 (by norm_num)
  have hsum := sum12_sub x
  calc |Real.sin x - sinTaylorP x|
      = Complex.abs (Complex.sin x -
          ((x : ℂ) - x ^ 3 / 6 + x ^ 5 / 120 - x ^ 7 / 5040 + x ^ 9 / 362880 -
            x ^ 11 / 39916800)) := by
        rw [← Complex.abs_ofReal]
        congr 1
        rw [sinTaylorP]
        push_cast [Complex.ofReal_sin]
        ring
    _ = Complex.abs (((Complex.exp (-(x : ℂ) * Complex.I) -
          ∑ m ∈ Finset.range 12, (-(x : ℂ) * Complex.I) ^ m / m.factorial) -
          (Complex.exp ((x : ℂ) * Complex.I) -
          ∑ m ∈ Finset.range 12, ((x : ℂ) * Complex.I) ^ m / m.factorial)) *
          Complex.I / 2) := by
        congr 1
        rw [Complex.sin]
        linear_combination hsum / 2
    _ ≤ Complex.abs ((Complex.exp (-(x : ℂ) * Complex.I) -
          ∑ m ∈ Finset.range 12, (-(x : ℂ) * Complex.I) ^ m / m.factorial) *
          Complex.I / 2) +
          Complex.abs (-((Complex.exp ((x : ℂ) * Complex.I) -
          ∑ m ∈ Finset.range 12, ((x : ℂ) * Complex.I) ^ m / m.factorial) *
          Complex.I / 2)) := by
        rw [sub_mul, sub_div, sub_eq_add_neg]
        exact Complex.abs.add_le _ _
    _ = Complex.abs (Complex.exp (-(x : ℂ) * Complex.I) -
          ∑ m ∈ Finset.range 12, (-(x : ℂ) * Complex.I) ^ m / m.factorial) / 2 +
          Complex.abs (Complex.exp ((x : ℂ) * Complex.I) -
          ∑ m ∈ Finset.range 12, ((x : ℂ) * Complex.I) ^ m / m.factorial) / 2 := by
        simp [map_div₀]
    _ ≤ Complex.abs (-(x : ℂ) * Complex.I) ^ 12 *
          (((12 : ℕ).succ : ℝ) * (((12 : ℕ).factorial : ℝ) * ((12 : ℕ) : ℝ))⁻¹) / 2 +
          Complex.abs ((x : ℂ) * Complex.I) ^ 12 *
          (((12 : ℕ).succ : ℝ) * (((12 : ℕ).factorial : ℝ) * ((12 : ℕ) : ℝ))⁻¹) / 2 := by
        gcongr
    _ ≤ |x| ^ 12 * (13 / 5748019200) := by
        rw [habs1, habs2]
        norm_num [Nat.factorial]

/-! ### Interval evaluation helpers -/

lemma mul_pi_bounds (w wl wu a b : ℝ) (hwl : wl ≤ w) (hwu : w ≤ wu) (h0 : 0 ≤ wl)
    (ha : a ≤ wl * 3.14159265358979323846) (hb : wu * 3.14159265358979323847 ≤ b) :
    a ≤ w * Real.pi ∧ w * Real.pi ≤ b := by
  have h1 := Real.pi_gt_d20
  have h2 := Real.pi_lt_d20
  have hpipos := Real.pi_pos
  constructor
  · calc a ≤ wl * 3.14159265358979323846 := ha
      _ ≤ w * Real.pi := by nlinarith
  · calc w * Real.pi ≤ wu * 3.14159265358979323847 := by nlinarith
      _ ≤ b := hb

lemma cos_bounds_interval (y lo hi clo chi : ℝ) (h0 : 0 ≤ lo) (h1 : lo ≤ y) (h2 : y ≤ hi)
    (h3 : hi ≤ 1)
    (hlo : clo ≤ 1 - hi ^ 2 / 2 + lo ^ 4 / 24 - hi ^ 6 / 720 + lo ^ 8 / 40320 -
      hi ^ 10 / 3628800 - hi ^ 12 * (13 / 5748019200))
    (hhi : 1 - lo ^ 2 / 2 + hi ^ 4 / 24 - lo ^ 6 / 720 + hi ^ 8 / 40320 -
      lo ^ 10 / 3628800 + hi ^ 12 * (13 / 5748019200) ≤ chi) :
    clo ≤ Real.cos y ∧ Real.cos y ≤ chi := by
  have hy0 : 0 ≤ y := le_trans h0 h1
  have habs : |y| ≤ 1 := by rw [abs_of_nonneg hy0]; exact le_trans h2 h3
  have ht := cos_taylor12 habs
  rw [abs_of_nonneg hy0, cosTaylorP] at ht
  have hab := abs_le.mp ht
  have p2 : lo ^ 2 ≤ y ^ 2 := pow_le_pow_left₀ h0 h1 2
  have q2 : y ^ 2 ≤ hi ^ 2 := pow_le_pow_left₀ hy0 h2 2
  have p4 : lo ^ 4 ≤ y ^ 4 := pow_le_pow_left₀ h0 h1 4
  have q4 : y ^ 4 ≤ hi ^ 4 := pow_le_pow_left₀ hy0 h2 4
  have p6 : lo ^ 6 ≤ y ^ 6 := pow_le_pow_left₀ h0 h1 6
  have q6 : y ^ 6 ≤ hi ^ 6 := pow_le_pow_left₀ hy0 h2 6
  have p8 : lo ^ 8 ≤ y ^ 8 := pow_le_pow_left₀ h0 h1 8
  have q8 : y ^ 8 ≤ hi ^ 8 := pow_le_pow_left₀ hy0 h2 8
  have p10 : lo ^ 10 ≤ y ^ 10 := pow_le_pow_left₀ h0 h1 10
  have q10 : y ^ 10 ≤ hi ^ 10 := pow_le_pow_left₀ hy0 h2 10
  have q12 : y ^ 12 ≤ hi ^ 12 := pow_le_pow_left₀ hy0 h2 12
  have r12 : (0:ℝ) ≤ y ^ 12 := by positivity
  constructor
  · linarith [hab.1]
  · linarith [hab.2]

lemma sin_bounds_interval (y lo hi slo shi : ℝ) (h0 : 0 ≤ lo) (h1 : lo ≤ y) (h2 : y ≤ hi)
    (h3 : hi ≤ 1)
    (hlo : slo ≤ lo - hi ^ 3 / 6 + lo ^ 5 / 120 - hi ^ 7 / 5040 + lo ^ 9 / 362880 -
      hi ^ 11 / 39916800 - hi ^ 12 * (13 / 5748019200))
    (hhi : hi - lo ^ 3 / 6 + hi ^ 5 / 120 - lo ^ 7 / 5040 + hi ^ 9 / 362880 -
      lo ^ 11 / 39916800 + hi ^ 12 * (13 / 5748019200) ≤ shi) :
    slo ≤ Real.sin y ∧ Real.sin y ≤ shi := by
  have hy0 : 0 ≤ y := le_trans h0 h1
  have habs : |y| ≤ 1 := by rw [abs_of_nonneg hy0]; exact le_trans h2 h3
  have ht := sin_taylor12 habs
  rw [abs_of_nonneg hy0, sinTaylorP] at ht
  have hab := abs_le.mp ht
  have p3 : lo ^ 3 ≤ y ^ 3 := pow_le_pow_left₀ h0 h1 3
  have q3 : y ^ 3 ≤ hi ^ 3 := pow_le_pow_left₀ hy0 h2 3
  have p5 : lo ^ 5 ≤ y ^ 5 := pow_le_pow_left₀ h0 h1 5
  have q5 : y ^ 5 ≤ hi ^ 5 := pow_le_pow_left₀ hy0 h2 5
  have p7 : lo ^ 7 ≤ y ^ 7 := pow_le_pow_left₀ h0 h1 7
  have q7 : y ^ 7 ≤ hi ^ 7 := pow_le_pow_left₀ hy0 h2 7
  have p9 : lo ^ 9 ≤ y ^ 9 := pow_le_pow_left₀ h0 h1 9
  have q9 : y ^ 9 ≤ hi ^ 9 := pow_le_pow_left₀ hy0 h2 9
  have p11 : lo ^ 11 ≤ y ^ 11 := pow_le_pow_left₀ h0 h1 11
  have q11 : y ^ 11 ≤ hi ^ 11 := pow_le_pow_left₀ hy0 h2 11
  have q12 : y ^ 12 ≤ hi ^ 12 := pow_le_pow_left₀ hy0 h2 12
  have r12 : (0:ℝ) ≤ y ^ 12 := by positivity
  constructor
  · linarith [hab.1]
  · linarith [hab.2]

/-! ### Quarter-turn shift identities -/

lemma sin_neg_add_six_pi (u : ℝ) : Real.sin (-u + 6 * Real.pi) = -Real.sin u := by
  have h : -u + 6 * Real.pi = -u + ((3 : ℤ) : ℝ) * (2 * Real.pi) := by push_cast; ring
  rw [h, Real.sin_add_int_mul_two_pi, Real.sin_neg]

lemma sin_neg_add_twelve_pi (u : ℝ) : Real.sin (-u + 12 * Real.pi) = -Real.sin u := by
  have h : -u + 12 * Real.pi = -u + ((6 : ℤ) : ℝ) * (2 * Real.pi) := by push_cast; ring
  rw [h, Real.sin_add_int_mul_two_pi, Real.sin_neg]

lemma sin_neg_add_eighteen_pi (u : ℝ) : Real.sin (-u + 18 * Real.pi) = -Real.sin u := by
  have h : -u + 18 * Real.pi = -u + ((9 : ℤ) : ℝ) * (2 * Real.pi) := by push_cast; ring
  rw [h, Real.sin_add_int_mul_two_pi, Real.sin_neg]

lemma cos_add_eleven_pi_div_two (u : ℝ) :
    Real.cos (u + 11 * (Real.pi / 2)) = Real.sin u := by
  have h : u + 11 * (Real.pi / 2) =
      (u + Real.pi + Real.pi / 2) + ((2 : ℤ) : ℝ) * (2 * Real.pi) := by
    push_cast; ring
  rw [h, Real.cos_add_int_mul_two_pi, Real.cos_add_pi_div_two, Real.sin_add_pi, neg_neg]

lemma sin_add_eleven_pi_div_two (u : ℝ) :
    Real.sin (u + 11 * (Real.pi / 2)) = -Real.cos u := by
  have h : u + 11 * (Real.pi / 2) =
      (u + Real.pi + Real.pi / 2) + ((2 : ℤ) : ℝ) * (2 * Real.pi) := by
    push_cast; ring
  rw [h, Real.sin_add_int_mul_two_pi, Real.sin_add_pi_div_two, Real.cos_add_pi]

lemma cos_add_three_pi_div_two (u : ℝ) :
    Real.cos (u + 3 * (Real.pi / 2)) = Real.sin u := by
  have h : u + 3 * (Real.pi / 2) = u + Real.pi + Real.pi / 2 := by ring
  rw [h, Real.cos_add_pi_div_two, Real.sin_add_pi, neg_neg]

lemma sin_add_three_pi_div_two (u : ℝ) :
    Real.sin (u + 3 * (Real.pi / 2)) = -Real.cos u := by
  have h : u + 3 * (Real.pi / 2) = u + Real.pi + Real.pi / 2 := by ring
  rw [h, Real.sin_add_pi_div_two, Real.cos_add_pi]

lemma cos_add_four_pi (u : ℝ) : Real.cos (u + 4 * Real.pi) = Real.cos u := by
  have h : u + 4 * Real.pi = u + ((2 : ℤ) : ℝ) * (2 * Real.pi) := by push_cast; ring
  rw [h, Real.cos_add_int_mul_two_pi]

lemma sin_add_four_pi (u : ℝ) : Real.sin (u + 4 * Real.pi) = Real.sin u := by
  have h : u + 4 * Real.pi = u + ((2 : ℤ) : ℝ) * (2 * Real.pi) := by push_cast; ring
  rw [h, Real.sin_add_int_mul_two_pi]

/-! ### Closed-form evaluation of the pipeline -/

lemma sunEclipticLongitude_eq (c : ℝ) :
    sunEclipticLongitude c = deg2rad (mlDeg c) + deg2rad (dlDeg c) := rfl

lemma obliquityStar_eq (c : ℝ) : obliquityStar c = deg2rad (obDeg c) := rfl

lemma cos_sin_arctan2_of_unit (x y z r : ℝ) (hr : r = Real.sqrt (1 - z * z))
    (hpyth : x ^ 2 + y ^ 2 + z ^ 2 = 1) (hz : z ^ 2 < 1) :
    Real.cos (arctan2 z r) = r ∧ Real.sin (arctan2 z r) = z := by
  have h1 : (0:ℝ) ≤ 1 - z * z := by nlinarith
  have hr2 : r ^ 2 = 1 - z * z := by
    rw [hr, sq, Real.mul_self_sqrt h1]
  have hrpos : 0 < r := by
    rw [hr]
    apply Real.sqrt_pos.mpr
    nlinarith
  have hne : (⟨r, z⟩ : ℂ) ≠ 0 := by
    intro hc
    have : r = 0 := congrArg Complex.re hc
    linarith
  have habs : Complex.abs ⟨r, z⟩ = 1 := by
    rw [Complex.abs_apply, Complex.normSq_mk]
    have : r * r + z * z = 1 := by nlinarith
    rw [this, Real.sqrt_one]
  constructor
  · rw [arctan2, Complex.cos_arg hne, habs]
    simp
  · rw [arctan2, Complex.sin_arg, habs]
    simp

lemma cos_sin_two_arctan2 (x y z r : ℝ) (hr : r = Real.sqrt (1 - z * z))
    (hpyth : x ^ 2 + y ^ 2 + z ^ 2 = 1) (hz : z ^ 2 < 1) (hxr : 0 < x + r) :
    Real.cos (2 * arctan2 y (x + r)) = x / r ∧
      Real.sin (2 * arctan2 y (x + r)) = y / r := by
  have h1 : (0:ℝ) ≤ 1 - z * z := by nlinarith
  have hr2 : r ^ 2 = 1 - z * z := by rw [hr, sq, Real.mul_self_sqrt h1]
  have hrpos : 0 < r := by
    rw [hr]; apply Real.sqrt_pos.mpr; nlinarith
  have hxy : x ^ 2 + y ^ 2 = r ^ 2 := by nlinarith
  have hne : (⟨x + r, y⟩ : ℂ) ≠ 0 := by
    intro hc
    have : x + r = 0 := congrArg Complex.re hc
    linarith
  have habs2 : Complex.abs ⟨x + r, y⟩ ^ 2 = 2 * r * (x + r) := by
    rw [Complex.sq_abs, Complex.normSq_mk]
    nlinarith
  have habspos : 0 < Complex.abs ⟨x + r, y⟩ := Complex.abs.pos hne
  have hcos : Real.cos (arctan2 y (x + r)) = (x + r) / Complex.abs ⟨x + r, y⟩ :=
    Complex.cos_arg hne
  have hsin : Real.sin (arctan2 y (x + r)) = y / Complex.abs ⟨x + r, y⟩ :=
    Complex.sin_arg _
  constructor
  · rw [Real.cos_two_mul, hcos, div_pow, habs2]
    field_simp
    nlinarith
  · rw [Real.sin_two_mul, hsin, hcos]
    have hA := habspos.ne.symm
    field_simp
    rw [← sq, habs2]
    ring

/-- Evaluation of `_star_cos_zenith` without `arctan2`: when the sun vector
is not at a pole of the half-angle transformation, the output equals
`sin(lat) * z + cos(lat) * (x * cos(lmst) + y * sin(lmst))`. -/
lemma star_cos_zenith_eval (c lon lat : ℝ)
    (hz : (Real.sin (obliquityStar c) * Real.sin (sunEclipticLongitude c)) ^ 2 < 1)
    (hxr : 0 < Real.cos (sunEclipticLongitude c) +
      Real.sqrt (1 - Real.sin (obliquityStar c) * Real.sin (sunEclipticLongitude c) *
        (Real.sin (obliquityStar c) * Real.sin (sunEclipticLongitude c)))) :
    starCosZenith c lon lat =
      Real.sin lat * (Real.sin (obliquityStar c) * Real.sin (sunEclipticLongitude c)) +
        Real.cos lat *
          (Real.cos (sunEclipticLongitude c) * Real.cos (localMeanSiderealTime c lon) +
            Real.cos (obliquityStar c) * Real.sin (sunEclipticLongitude c) *
              Real.sin (localMeanSiderealTime c lon)) := by
  have hsz : starCosZenith c lon lat =
      Real.sin lat * Real.sin (rightAscensionDeclination c).2 +
        Real.cos lat * Real.cos (rightAscensionDeclination c).2 *
          Real.cos (localMeanSiderealTime c lon - (rightAscensionDeclination c).1) := rfl
  set sl := Real.sin (sunEclipticLongitude c) with hsl
  set cl := Real.cos (sunEclipticLongitude c) with hcl
  set se := Real.sin (obliquityStar c) with hse
  set ce := Real.cos (obliquityStar c) with hce
  have hpyth : cl ^ 2 + (ce * sl) ^ 2 + (se * sl) ^ 2 = 1 := by
    have := one_sub_z_sq (obliquityStar c) (sunEclipticLongitude c)
    rw [← hsl, ← hcl, ← hse, ← hce] at this
    nlinarith
  have hdec := cos_sin_arctan2_of_unit cl (ce * sl) (se * sl)
    (Real.sqrt (1 - se * sl * (se * sl))) (by rw [mul_assoc]) hpyth hz
  have hra := cos_sin_two_arctan2 cl (ce * sl) (se * sl)
    (Real.sqrt (1 - se * sl * (se * sl))) (by rw [mul_assoc]) hpyth hz hxr
  have hrpos : 0 < Real.sqrt (1 - se * sl * (se * sl)) := by
    apply Real.sqrt_pos.mpr
    nlinarith
  rw [hsz, dec_eq, ra_eq, ← hsl, ← hcl, ← hse, ← hce]
  rw [hdec.1, hdec.2, Real.cos_sub, hra.1, hra.2]
  field_simp
  ring

/-- Reduction of `_greenwich_mean_sidereal_time` to an explicit rational
multiple of `pi`, given the integer part of half the rotation count. -/
lemma gmst_reduction (c q : ℝ) (k : ℤ)
    (hq : (67310.54841 + c * (876600 * 3600 + 8640184.812866 +
      c * (0.093104 - c * (6.2 * 10e-6)))) / 43200 = q)
    (hk1 : (k : ℝ) ≤ q / 2) (hk2 : q / 2 < k + 1) :
    greenwichMeanSiderealTime c = (q - 2 * k) * Real.pi := by
  have hpi := Real.pi_ne_zero
  have h1 : deg2rad ((67310.54841 + c * (876600 * 3600 + 8640184.812866 +
      c * (0.093104 - c * (6.2 * 10e-6)))) / 240) = q * Real.pi := by
    rw [deg2rad, ← hq]
    ring
  rw [greenwichMeanSiderealTime, h1, fmod]
  have h2 : q * Real.pi / (2 * Real.pi) = q / 2 := by
    field_simp
    ring
  rw [h2]
  have h3 : ⌊q / 2⌋ = k := by
    rw [Int.floor_eq_iff]
    exact ⟨hk1, hk2⟩
  rw [h3]
  ring

/-! ### Certified numeric bounds at the two julian-century instances -/

lemma bnd_sin_ma_A :
    -0.034848806917 ≤ Real.sin (deg2rad (maDeg jcA)) ∧
      Real.sin (deg2rad (maDeg jcA)) ≤ -0.034848806915 := by
  have hw : (0.0110949662302 : ℝ) ≤ 6 - maDeg jcA / 180 ∧
      6 - maDeg jcA / 180 ≤ 0.0110949662303 := by
    constructor <;> (simp only [maDeg, jcA]; norm_num)
  have hu := mul_pi_bounds (6 - maDeg jcA / 180) 0.0110949662302 0.0110949662303
    0.0348558644006 0.034855864401 hw.1 hw.2 (by norm_num) (by norm_num) (by norm_num)
  have hs := sin_bounds_interval ((6 - maDeg jcA / 180) * Real.pi)
    0.0348558644006 0.034855864401 0.034848806915 0.034848806917
    (by norm_num) hu.1 hu.2 (by norm_num) (by norm_num) (by norm_num)
  have hrep : deg2rad (maDeg jcA) = -((6 - maDeg jcA / 180) * Real.pi) + 6 * Real.pi := by
    rw [deg2rad]; ring
  rw [hrep, sin_neg_add_six_pi]
  exact ⟨by linarith [hs.2], by linarith [hs.1]⟩

lemma bnd_sin_2ma_A :
    -0.069655279214 ≤ Real.sin (2 * deg2rad (maDeg jcA)) ∧
      Real.sin (2 * deg2rad (maDeg jcA)) ≤ -0.069655279212 := by
  have hw : (0.0221899324605 : ℝ) ≤ 12 - maDeg jcA / 90 ∧
      12 - maDeg jcA / 90 ≤ 0.0221899324606 := by
    constructor <;> (simp only [maDeg, jcA]; norm_num)
  have hu := mul_pi_bounds (12 - maDeg jcA / 90) 0.0221899324605 0.0221899324606
    0.0697117288015 0.0697117288019 hw.1 hw.2 (by norm_num) (by norm_num) (by norm_num)
  have hs := sin_bounds_interval ((12 - maDeg jcA / 90) * Real.pi)
    0.0697117288015 0.0697117288019 0.069655279212 0.069655279214
    (by norm_num) hu.1 hu.2 (by norm_num) (by norm_num) (by norm_num)
  have hrep : 2 * deg2rad (maDeg jcA) = -((12 - maDeg jcA / 90) * Real.pi) + 12 * Real.pi := by
    rw [deg2rad]; ring
  rw [hrep, sin_neg_add_twelve_pi]
  exact ⟨by linarith [hs.2], by linarith [hs.1]⟩

lemma bnd_sin_3ma_A :
    -0.104377133701 ≤ Real.sin (3 * deg2rad (maDeg jcA)) ∧
      Real.sin (3 * deg2rad (maDeg jcA)) ≤ -0.104377133699 := by
  have hw : (0.0332848986908 : ℝ) ≤ 18 - maDeg jcA / 60 ∧
      18 - maDeg jcA / 60 ≤ 0.0332848986909 := by
    constructor <;> (simp only [maDeg, jcA]; norm_num)
  have hu := mul_pi_bounds (18 - maDeg jcA / 60) 0.0332848986908 0.0332848986909
    0.1045675932024 0.1045675932029 hw.1 hw.2 (by norm_num) (by norm_num) (by norm_num)
  have hs := sin_bounds_interval ((18 - maDeg jcA / 60) * Real.pi)
    0.1045675932024 0.1045675932029 0.104377133699 0.104377133701
    (by norm_num) hu.1 hu.2 (by norm_num) (by norm_num) (by norm_num)
  have hrep : 3 * deg2rad (maDeg jcA) = -((18 - maDeg jcA / 60) * Real.pi) + 18 * Real.pi := by
    rw [deg2rad]; ring
  rw [hrep, sin_neg_add_eighteen_pi]
  exact ⟨by linarith [hs.2], by linarith [hs.1]⟩

lemma bnd_dl_A : (-0.068140912462 : ℝ) ≤ dlDeg jcA ∧ dlDeg jcA ≤ -0.068140912458 := by
  have h1 := bnd_sin_ma_A
  have h2 := bnd_sin_2ma_A
  have h3 := bnd_sin_3ma_A
  rw [dlDeg]
  simp only [jcA] at h1 h2 h3 ⊢
  constructor <;> nlinarith [h1.1, h1.2, h2.1, h2.2, h3.1, h3.2]

lemma bnd_eclon_A :
    ((0.189207346839 : ℝ) ≤ Real.cos (sunEclipticLongitude jcA) ∧
      Real.cos (sunEclipticLongitude jcA) ≤ 0.189207346841) ∧
    ((-0.981937156799 : ℝ) ≤ Real.sin (sunEclipticLongitude jcA) ∧
      Real.sin (sunEclipticLongitude jcA) ≤ -0.981937156798) := by
  have hdl := bnd_dl_A
  have hml : mlDeg jcA = 834609943140679847 / 833797265625000 := by
    simp only [mlDeg, jcA]; norm_num
  have hw : (0.0605918304948 : ℝ) ≤ (mlDeg jcA + dlDeg jcA) / 180 - 11 / 2 ∧
      (mlDeg jcA + dlDeg jcA) / 180 - 11 / 2 ≤ 0.0605918304949 := by
    constructor <;> linarith [hdl.1, hdl.2, hml.le, hml.ge]
  have hu := mul_pi_bounds ((mlDeg jcA + dlDeg jcA) / 180 - 11 / 2) 0.0605918304948 0.0605918304949
    0.19035484955 0.1903548495504 hw.1 hw.2 (by norm_num) (by norm_num) (by norm_num)
  have hsin := sin_bounds_interval (((mlDeg jcA + dlDeg jcA) / 180 - 11 / 2) * Real.pi)
    0.19035484955 0.1903548495504 0.189207346839 0.189207346841
    (by norm_num) hu.1 hu.2 (by norm_num) (by norm_num) (by norm_num)
  have hcos := cos_bounds_interval (((mlDeg jcA + dlDeg jcA) / 180 - 11 / 2) * Real.pi)
    0.19035484955 0.1903548495504 0.981937156798 0.981937156799
    (by norm_num) hu.1 hu.2 (by norm_num) (by norm_num) (by norm_num)
  have hrep : sunEclipticLongitude jcA =
      (((mlDeg jcA + dlDeg jcA) / 180 - 11 / 2) * Real.pi) + 11 * (Real.pi / 2) := by
    rw [sunEclipticLongitude_eq, deg2rad, deg2rad]; ring
  constructor
  · rw [hrep, cos_add_eleven_pi_div_two]
    exact ⟨hsin.1, hsin.2⟩
  · rw [hrep, sin_add_eleven_pi_div_two]
    exact ⟨by linarith [hcos.2], by linarith [hcos.1]⟩

lemma bnd_eps_A :
    ((0.397772799583 : ℝ) ≤ Real.sin (obliquityStar jcA) ∧
      Real.sin (obliquityStar jcA) ≤ 0.397772799585) ∧
    ((0.917483950764 : ℝ) ≤ Real.cos (obliquityStar jcA) ∧
      Real.cos (obliquityStar jcA) ≤ 0.917483950766) := by
  have hw : (0.1302167725671 : ℝ) ≤ obDeg jcA / 180 ∧ obDeg jcA / 180 ≤ 0.1302167725672 := by
    constructor <;> (simp only [obDeg, jcA]; norm_num)
  have hu := mul_pi_bounds (obDeg jcA / 180) 0.1302167725671 0.1302167725672
    0.4090880560709 0.4090880560713 hw.1 hw.2 (by norm_num) (by norm_num) (by norm_num)
  have hsin := sin_bounds_interval ((obDeg jcA / 180) * Real.pi)
    0.4090880560709 0.4090880560713 0.397772799583 0.397772799585
    (by norm_num) hu.1 hu.2 (by norm_num) (by norm_num) (by norm_num)
  have hcos := cos_bounds_interval ((obDeg jcA / 180) * Real.pi)
    0.4090880560709 0.4090880560713 0.917483950764 0.917483950766
    (by norm_num) hu.1 hu.2 (by norm_num) (by norm_num) (by norm_num)
  have hrep : obliquityStar jcA = (obDeg jcA / 180) * Real.pi := by
    rw [obliquityStar_eq, deg2rad]; ring
  rw [hrep]
  exact ⟨⟨hsin.1, hsin.2⟩, ⟨hcos.1, hcos.2⟩⟩

lemma gmst_A_eq : greenwichMeanSiderealTime jcA =
    (1544616140221558708297797679 / 1052505623587500000000000 - 1466) * Real.pi := by
  have h := gmst_reduction jcA
    (1544616140221558708297797679 / 1052505623587500000000000) 733
    (by simp only [jcA]; norm_num) (by norm_num) (by norm_num)
  rw [h]
  norm_num

lemma bnd_gmst_trig_A :
    ((0.190275170845 : ℝ) ≤ Real.cos (greenwichMeanSiderealTime jcA) ∧
      Real.cos (greenwichMeanSiderealTime jcA) ≤ 0.190275170847) ∧
    ((-0.981730797806 : ℝ) ≤ Real.sin (greenwichMeanSiderealTime jcA) ∧
      Real.sin (greenwichMeanSiderealTime jcA) ≤ -0.981730797805) := by
  have hw : (0.0609380182538 : ℝ) ≤ 1544616140221558708297797679 / 1052505623587500000000000 - 1466 - 3 / 2 ∧ (1544616140221558708297797679 / 1052505623587500000000000 - 1466 - 3 / 2 : ℝ) ≤ 0.0609380182539 := by norm_num
  have hu := mul_pi_bounds (1544616140221558708297797679 / 1052505623587500000000000 - 1466 - 3 / 2) 0.0609380182538 0.0609380182539
    0.1914424304704 0.1914424304708 hw.1 hw.2 (by norm_num) (by norm_num) (by norm_num)
  have hsin := sin_bounds_interval ((1544616140221558708297797679 / 1052505623587500000000000 - 1466 - 3 / 2) * Real.pi)
    0.1914424304704 0.1914424304708 0.190275170845 0.190275170847
    (by norm_num) hu.1 hu.2 (by norm_num) (by norm_num) (by norm_num)
  have hcos := cos_bounds_interval ((1544616140221558708297797679 / 1052505623587500000000000 - 1466 - 3 / 2) * Real.pi)
    0.1914424304704 0.1914424304708 0.981730797805 0.981730797806
    (by norm_num) hu.1 hu.2 (by norm_num) (by norm_num) (by norm_num)
  have hrep : greenwichMeanSiderealTime jcA =
      ((1544616140221558708297797679 / 1052505623587500000000000 - 1466 - 3 / 2) * Real.pi) + 3 * (Real.pi / 2) := by
    rw [gmst_A_eq]; ring
  constructor
  · rw [hrep, cos_add_three_pi_div_two]
    exact ⟨hsin.1, hsin.2⟩
  · rw [hrep, sin_add_three_pi_div_two]
    exact ⟨by linarith [hcos.2], by linarith [hcos.1]⟩

lemma bnd_lmst120_A :
    ((0.755066225076 : ℝ) ≤ Real.cos (localMeanSiderealTime jcA (deg2rad 120)) ∧
      Real.cos (localMeanSiderealTime jcA (deg2rad 120)) ≤ 0.755066225158) ∧
    ((0.655648530522 : ℝ) ≤ Real.sin (localMeanSiderealTime jcA (deg2rad 120)) ∧
      Real.sin (localMeanSiderealTime jcA (deg2rad 120)) ≤ 0.655648530604) := by
  have hw : (0.2276046849205 : ℝ) ≤ 1544616140221558708297797679 / 1052505623587500000000000 - 1466 + 2 / 3 - 2 ∧ (1544616140221558708297797679 / 1052505623587500000000000 - 1466 + 2 / 3 - 2 : ℝ) ≤ 0.2276046849206 := by norm_num
  have hu := mul_pi_bounds (1544616140221558708297797679 / 1052505623587500000000000 - 1466 + 2 / 3 - 2) 0.2276046849205 0.2276046849206
    0.7150412060688 0.7150412060692 hw.1 hw.2 (by norm_num) (by norm_num) (by norm_num)
  have hsin := sin_bounds_interval ((1544616140221558708297797679 / 1052505623587500000000000 - 1466 + 2 / 3 - 2) * Real.pi)
    0.7150412060688 0.7150412060692 0.655648530522 0.655648530604
    (by norm_num) hu.1 hu.2 (by norm_num) (by norm_num) (by norm_num)
  have hcos := cos_bounds_interval ((1544616140221558708297797679 / 1052505623587500000000000 - 1466 + 2 / 3 - 2) * Real.pi)
    0.7150412060688 0.7150412060692 0.755066225076 0.755066225158
    (by norm_num) hu.1 hu.2 (by norm_num) (by norm_num) (by norm_num)
  have hrep : localMeanSiderealTime jcA (deg2rad 120) =
      ((1544616140221558708297797679 / 1052505623587500000000000 - 1466 + 2 / 3 - 2) * Real.pi) + 2 * Real.pi := by
    rw [localMeanSiderealTime, gmst_A_eq, deg2rad]; ring
  rw [hrep, Real.cos_add_two_pi, Real.sin_add_two_pi]
  exact ⟨⟨hcos.1, hcos.2⟩, ⟨hsin.1, hsin.2⟩⟩

lemma bnd_sin_ma_B :
    -0.043443172679 ≤ Real.sin (deg2rad (maDeg jcB)) ∧
      Real.sin (deg2rad (maDeg jcB)) ≤ -0.043443172678 := by
  have hw : (0.0138327447909 : ℝ) ≤ 6 - maDeg jcB / 180 ∧
      6 - maDeg jcB / 180 ≤ 0.013832744791 := by
    constructor <;> (simp only [maDeg, jcB]; norm_num)
  have hu := mul_pi_bounds (6 - maDeg jcB / 180) 0.0138327447909 0.013832744791
    0.043456849414 0.0434568494144 hw.1 hw.2 (by norm_num) (by norm_num) (by norm_num)
  have hs := sin_bounds_interval ((6 - maDeg jcB / 180) * Real.pi)
    0.043456849414 0.0434568494144 0.043443172678 0.043443172679
    (by norm_num) hu.1 hu.2 (by norm_num) (by norm_num) (by norm_num)
  have hrep : deg2rad (maDeg jcB) = -((6 - maDeg jcB / 180) * Real.pi) + 6 * Real.pi := by
    rw [deg2rad]; ring
  rw [hrep, sin_neg_add_six_pi]
  exact ⟨by linarith [hs.2], by linarith [hs.1]⟩

lemma bnd_sin_2ma_B :
    -0.086804315934 ≤ Real.sin (2 * deg2rad (maDeg jcB)) ∧
      Real.sin (2 * deg2rad (maDeg jcB)) ≤ -0.086804315933 := by
  have hw : (0.0276654895818 : ℝ) ≤ 12 - maDeg jcB / 90 ∧
      12 - maDeg jcB / 90 ≤ 0.0276654895819 := by
    constructor <;> (simp only [maDeg, jcB]; norm_num)
  have hu := mul_pi_bounds (12 - maDeg jcB / 90) 0.0276654895818 0.0276654895819
    0.0869136988281 0.0869136988285 hw.1 hw.2 (by norm_num) (by norm_num) (by norm_num)
  have hs := sin_bounds_interval ((12 - maDeg jcB / 90) * Real.pi)
    0.0869136988281 0.0869136988285 0.086804315933 0.086804315934
    (by norm_num) hu.1 hu.2 (by norm_num) (by norm_num) (by norm_num)
  have hrep : 2 * deg2rad (maDeg jcB) = -((12 - maDeg jcB / 90) * Real.pi) + 12 * Real.pi := by
    rw [deg2rad]; ring
  rw [hrep, sin_neg_add_twelve_pi]
  exact ⟨by linarith [hs.2], by linarith [hs.1]⟩

lemma bnd_sin_3ma_B :
    -0.130001555229 ≤ Real.sin (3 * deg2rad (maDeg jcB)) ∧
      Real.sin (3 * deg2rad (maDeg jcB)) ≤ -0.130001555228 := by
  have hw : (0.0414982343727 : ℝ) ≤ 18 - maDeg jcB / 60 ∧
      18 - maDeg jcB / 60 ≤ 0.0414982343728 := by
    constructor <;> (simp only [maDeg, jcB]; norm_num)
  have hu := mul_pi_bounds (18 - maDeg jcB / 60) 0.0414982343727 0.0414982343728
    0.1303705482422 0.1303705482426 hw.1 hw.2 (by norm_num) (by norm_num) (by norm_num)
  have hs := sin_bounds_interval ((18 - maDeg jcB / 60) * Real.pi)
    0.1303705482422 0.1303705482426 0.130001555228 0.130001555229
    (by norm_num) hu.1 hu.2 (by norm_num) (by norm_num) (by norm_num)
  have hrep : 3 * deg2rad (maDeg jcB) = -((18 - maDeg jcB / 60) * Real.pi) + 18 * Real.pi := by
    rw [deg2rad]; ring
  rw [hrep, sin_neg_add_eighteen_pi]
  exact ⟨by linarith [hs.2], by linarith [hs.1]⟩

lemma bnd_dl_B : (-0.084945116648 : ℝ) ≤ dlDeg jcB ∧ dlDeg jcB ≤ -0.084945116645 := by
  have h1 := bnd_sin_ma_B
  have h2 := bnd_sin_2ma_B
  have h3 := bnd_sin_3ma_B
  rw [dlDeg]
  simp only [jcB] at h1 h2 h3 ⊢
  constructor <;> nlinarith [h1.1, h1.2, h2.1, h2.2, h3.1, h3.2]

lemma bnd_eclon_B :
    ((0.180465956194 : ℝ) ≤ Real.cos (sunEclipticLongitude jcB) ∧
      Real.cos (sunEclipticLongitude jcB) ≤ 0.180465956195) ∧
    ((-0.983581231346 : ℝ) ≤ Real.sin (sunEclipticLongitude jcB) ∧
      Real.sin (sunEclipticLongitude jcB) ≤ -0.983581231345) := by
  have hdl := bnd_dl_B
  have hml : mlDeg jcB = 781626442751 / 781250000 := by
    simp only [mlDeg, jcB]; norm_num
  have hw : (0.0577605644701 : ℝ) ≤ (mlDeg jcB + dlDeg jcB) / 180 - 11 / 2 ∧
      (mlDeg jcB + dlDeg jcB) / 180 - 11 / 2 ≤ 0.0577605644702 := by
    constructor <;> linarith [hdl.1, hdl.2, hml.le, hml.ge]
  have hu := mul_pi_bounds ((mlDeg jcB + dlDeg jcB) / 180 - 11 / 2) 0.0577605644701 0.0577605644702
    0.1814601650064 0.1814601650068 hw.1 hw.2 (by norm_num) (by norm_num) (by norm_num)
  have hsin := sin_bounds_interval (((mlDeg jcB + dlDeg jcB) / 180 - 11 / 2) * Real.pi)
    0.1814601650064 0.1814601650068 0.180465956194 0.180465956195
    (by norm_num) hu.1 hu.2 (by norm_num) (by norm_num) (by norm_num)
  have hcos := cos_bounds_interval (((mlDeg jcB + dlDeg jcB) / 180 - 11 / 2) * Real.pi)
    0.1814601650064 0.1814601650068 0.983581231345 0.983581231346
    (by norm_num) hu.1 hu.2 (by norm_num) (by norm_num) (by norm_num)
  have hrep : sunEclipticLongitude jcB =
      (((mlDeg jcB + dlDeg jcB) / 180 - 11 / 2) * Real.pi) + 11 * (Real.pi / 2) := by
    rw [sunEclipticLongitude_eq, deg2rad, deg2rad]; ring
  constructor
  · rw [hrep, cos_add_eleven_pi_div_two]
    exact ⟨hsin.1, hsin.2⟩
  · rw [hrep, sin_add_eleven_pi_div_two]
    exact ⟨by linarith [hcos.2], by linarith [hcos.1]⟩

lemma bnd_eps_B :
    ((0.397772802435 : ℝ) ≤ Real.sin (obliquityStar jcB) ∧
      Real.sin (obliquityStar jcB) ≤ 0.397772802437) ∧
    ((0.917483949528 : ℝ) ≤ Real.cos (obliquityStar jcB) ∧
      Real.cos (obliquityStar jcB) ≤ 0.917483949529) := by
  have hw : (0.1302167735566 : ℝ) ≤ obDeg jcB / 180 ∧ obDeg jcB / 180 ≤ 0.1302167735567 := by
    constructor <;> (simp only [obDeg, jcB]; norm_num)
  have hu := mul_pi_bounds (obDeg jcB / 180) 0.1302167735566 0.1302167735567
    0.4090880591795 0.4090880591799 hw.1 hw.2 (by norm_num) (by norm_num) (by norm_num)
  have hsin := sin_bounds_interval ((obDeg jcB / 180) * Real.pi)
    0.4090880591795 0.4090880591799 0.397772802435 0.397772802437
    (by norm_num) hu.1 hu.2 (by norm_num) (by norm_num) (by norm_num)
  have hcos := cos_bounds_interval ((obDeg jcB / 180) * Real.pi)
    0.4090880591795 0.4090880591799 0.917483949528 0.917483949529
    (by norm_num) hu.1 hu.2 (by norm_num) (by norm_num) (by norm_num)
  have hrep : obliquityStar jcB = (obDeg jcB / 180) * Real.pi := by
    rw [obliquityStar_eq, deg2rad]; ring
  rw [hrep]
  exact ⟨⟨hsin.1, hsin.2⟩, ⟨hcos.1, hcos.2⟩⟩

lemma gmst_B_eq : greenwichMeanSiderealTime jcB =
    (3959707140294035069 / 2700000000000000 - 1466) * Real.pi := by
  have h := gmst_reduction jcB
    (3959707140294035069 / 2700000000000000) 733
    (by simp only [jcB]; norm_num) (by norm_num) (by norm_num)
  rw [h]
  norm_num

lemma bnd_gmst_trig_B :
    ((-0.181823981087 : ℝ) ≤ Real.cos (greenwichMeanSiderealTime jcB) ∧
      Real.cos (greenwichMeanSiderealTime jcB) ≤ -0.181823981086) ∧
    ((0.983331093732 : ℝ) ≤ Real.sin (greenwichMeanSiderealTime jcB) ∧
      Real.sin (greenwichMeanSiderealTime jcB) ≤ 0.983331093733) := by
  have hw : (0.0582001089018 : ℝ) ≤ 3959707140294035069 / 2700000000000000 - 1466 - 1 / 2 ∧ (3959707140294035069 / 2700000000000000 - 1466 - 1 / 2 : ℝ) ≤ 0.0582001089019 := by norm_num
  have hu := mul_pi_bounds (3959707140294035069 / 2700000000000000 - 1466 - 1 / 2) 0.0582001089018 0.0582001089019
    0.182841034564 0.1828410345644 hw.1 hw.2 (by norm_num) (by norm_num) (by norm_num)
  have hsin := sin_bounds_interval ((3959707140294035069 / 2700000000000000 - 1466 - 1 / 2) * Real.pi)
    0.182841034564 0.1828410345644 0.181823981086 0.181823981087
    (by norm_num) hu.1 hu.2 (by norm_num) (by norm_num) (by norm_num)
  have hcos := cos_bounds_interval ((3959707140294035069 / 2700000000000000 - 1466 - 1 / 2) * Real.pi)
    0.182841034564 0.1828410345644 0.983331093732 0.983331093733
    (by norm_num) hu.1 hu.2 (by norm_num) (by norm_num) (by norm_num)
  have hrep : greenwichMeanSiderealTime jcB =
      ((3959707140294035069 / 2700000000000000 - 1466 - 1 / 2) * Real.pi) + Real.pi / 2 := by
    rw [gmst_B_eq]; ring
  constructor
  · rw [hrep, Real.cos_add_pi_div_two]
    exact ⟨by linarith [hsin.2], by linarith [hsin.1]⟩
  · rw [hrep, Real.sin_add_pi_div_two]
    exact ⟨hcos.1, hcos.2⟩


/-! ### Interval products and pipeline values at the two instances -/

lemma mul_bounds (p q pa pb qa qb lo hi : ℝ) (hpa : pa ≤ p) (hpb : p ≤ pb)
    (hqa : qa ≤ q) (hqb : q ≤ qb)
    (h1 : lo ≤ pa * qa) (h2 : lo ≤ pa * qb) (h3 : lo ≤ pb * qa) (h4 : lo ≤ pb * qb)
    (h5 : pa * qa ≤ hi) (h6 : pa * qb ≤ hi) (h7 : pb * qa ≤ hi) (h8 : pb * qb ≤ hi) :
    lo ≤ p * q ∧ p * q ≤ hi := by
  constructor
  · rcases le_total 0 q with hq | hq
    · have hpq : pa * q ≤ p * q := mul_le_mul_of_nonneg_right hpa hq
      rcases le_total 0 pa with hp0 | hp0
      · have : pa * qa ≤ pa * q := mul_le_mul_of_nonneg_left hqa hp0
        linarith
      · have : pa * qb ≤ pa * q := mul_le_mul_of_nonpos_left hqb hp0
        linarith
    · have hpq : pb * q ≤ p * q := mul_le_mul_of_nonpos_right hpb hq
      rcases le_total 0 pb with hp0 | hp0
      · have : pb * qa ≤ pb * q := mul_le_mul_of_nonneg_left hqa hp0
        linarith
      · have : pb * qb ≤ pb * q := mul_le_mul_of_nonpos_left hqb hp0
        linarith
  · rcases le_total 0 q with hq | hq
    · have hpq : p * q ≤ pb * q := mul_le_mul_of_nonneg_right hpb hq
      rcases le_total 0 pb with hp0 | hp0
      · have : pb * q ≤ pb * qb := mul_le_mul_of_nonneg_left hqb hp0
        linarith
      · have : pb * q ≤ pb * qa := mul_le_mul_of_nonpos_left hqa hp0
        linarith
    · have hpq : p * q ≤ pa * q := mul_le_mul_of_nonpos_right hpa hq
      rcases le_total 0 pa with hp0 | hp0
      · have : pa * q ≤ pa * qb := mul_le_mul_of_nonneg_left hqb hp0
        linarith
      · have : pa * q ≤ pa * qa := mul_le_mul_of_nonpos_left hqa hp0
        linarith

lemma z_A_bounds :
    (-0.390587891877 : ℝ) ≤
      Real.sin (obliquityStar jcA) * Real.sin (sunEclipticLongitude jcA) ∧
    Real.sin (obliquityStar jcA) * Real.sin (sunEclipticLongitude jcA) ≤
      -0.390587891874 :=
  mul_bounds _ _ 0.397772799583 0.397772799585 (-0.981937156799) (-0.981937156798)
    (-0.390587891877) (-0.390587891874)
    (bnd_eps_A).1.1 (bnd_eps_A).1.2 (bnd_eclon_A).2.1 (bnd_eclon_A).2.2
    (by norm_num) (by norm_num) (by norm_num) (by norm_num)
    (by norm_num) (by norm_num) (by norm_num) (by norm_num)

lemma y_A_bounds :
    (-0.900911582024 : ℝ) ≤
      Real.cos (obliquityStar jcA) * Real.sin (sunEclipticLongitude jcA) ∧
    Real.cos (obliquityStar jcA) * Real.sin (sunEclipticLongitude jcA) ≤
      -0.90091158202 :=
  mul_bounds _ _ 0.917483950764 0.917483950766 (-0.981937156799) (-0.981937156798)
    (-0.900911582024) (-0.90091158202)
    (bnd_eps_A).2.1 (bnd_eps_A).2.2 (bnd_eclon_A).2.1 (bnd_eclon_A).2.2
    (by norm_num) (by norm_num) (by norm_num) (by norm_num)
    (by norm_num) (by norm_num) (by norm_num) (by norm_num)

lemma hz_A : (Real.sin (obliquityStar jcA) * Real.sin (sunEclipticLongitude jcA)) ^ 2 < 1 := by
  have h := z_A_bounds
  nlinarith [h.1, h.2]

lemma hxr_A : 0 < Real.cos (sunEclipticLongitude jcA) +
    Real.sqrt (1 - Real.sin (obliquityStar jcA) * Real.sin (sunEclipticLongitude jcA) *
      (Real.sin (obliquityStar jcA) * Real.sin (sunEclipticLongitude jcA))) := by
  have hx := bnd_eclon_A
  have hs := Real.sqrt_nonneg (1 -
    Real.sin (obliquityStar jcA) * Real.sin (sunEclipticLongitude jcA) *
      (Real.sin (obliquityStar jcA) * Real.sin (sunEclipticLongitude jcA)))
  linarith [hx.1.1]

lemma z_B_bounds :
    (-0.391241862817 : ℝ) ≤
      Real.sin (obliquityStar jcB) * Real.sin (sunEclipticLongitude jcB) ∧
    Real.sin (obliquityStar jcB) * Real.sin (sunEclipticLongitude jcB) ≤
      -0.391241862814 :=
  mul_bounds _ _ 0.397772802435 0.397772802437 (-0.983581231346) (-0.983581231345)
    (-0.391241862817) (-0.391241862814)
    (bnd_eps_B).1.1 (bnd_eps_B).1.2 (bnd_eclon_B).2.1 (bnd_eclon_B).2.2
    (by norm_num) (by norm_num) (by norm_num) (by norm_num)
    (by norm_num) (by norm_num) (by norm_num) (by norm_num)

lemma y_B_bounds :
    (-0.902419992818 : ℝ) ≤
      Real.cos (obliquityStar jcB) * Real.sin (sunEclipticLongitude jcB) ∧
    Real.cos (obliquityStar jcB) * Real.sin (sunEclipticLongitude jcB) ≤
      -0.902419992816 :=
  mul_bounds _ _ 0.917483949528 0.917483949529 (-0.983581231346) (-0.983581231345)
    (-0.902419992818) (-0.902419992816)
    (bnd_eps_B).2.1 (bnd_eps_B).2.2 (bnd_eclon_B).2.1 (bnd_eclon_B).2.2
    (by norm_num) (by norm_num) (by norm_num) (by norm_num)
    (by norm_num) (by norm_num) (by norm_num) (by norm_num)

lemma hz_B : (Real.sin (obliquityStar jcB) * Real.sin (sunEclipticLongitude jcB)) ^ 2 < 1 := by
  have h := z_B_bounds
  nlinarith [h.1, h.2]

lemma hxr_B : 0 < Real.cos (sunEclipticLongitude jcB) +
    Real.sqrt (1 - Real.sin (obliquityStar jcB) * Real.sin (sunEclipticLongitude jcB) *
      (Real.sin (obliquityStar jcB) * Real.sin (sunEclipticLongitude jcB))) := by
  have hx := bnd_eclon_B
  have hs := Real.sqrt_nonneg (1 -
    Real.sin (obliquityStar jcB) * Real.sin (sunEclipticLongitude jcB) *
      (Real.sin (obliquityStar jcB) * Real.sin (sunEclipticLongitude jcB)))
  linarith [hx.1.1]

lemma starCosZenith_A_lon0_gt : 1 / 2 < starCosZenith jcA 0 0 := by
  rw [star_cos_zenith_eval jcA 0 0 hz_A hxr_A, Real.sin_zero, Real.cos_zero]
  have hg0 : localMeanSiderealTime jcA 0 = greenwichMeanSiderealTime jcA := by
    rw [localMeanSiderealTime]; ring
  rw [hg0]
  have h1 := mul_bounds (Real.cos (sunEclipticLongitude jcA))
    (Real.cos (greenwichMeanSiderealTime jcA))
    0.189207346839 0.189207346841 0.190275170845 0.190275170847
    0.036001460244 0.036001460246
    (bnd_eclon_A).1.1 (bnd_eclon_A).1.2 (bnd_gmst_trig_A).1.1 (bnd_gmst_trig_A).1.2
    (by norm_num) (by norm_num) (by norm_num) (by norm_num)
    (by norm_num) (by norm_num) (by norm_num) (by norm_num)
  have h2 := mul_bounds
    (Real.cos (obliquityStar jcA) * Real.sin (sunEclipticLongitude jcA))
    (Real.sin (greenwichMeanSiderealTime jcA))
    (-0.900911582024) (-0.90091158202) (-0.981730797806) (-0.981730797805)
    0.884452646 0.884452647
    (y_A_bounds).1 (y_A_bounds).2 (bnd_gmst_trig_A).2.1 (bnd_gmst_trig_A).2.2
    (by norm_num) (by norm_num) (by norm_num) (by norm_num)
    (by norm_num) (by norm_num) (by norm_num) (by norm_num)
  nlinarith [h1.1, h2.1]

lemma starCosZenith_B_lon0_lt : starCosZenith jcB 0 0 < -(1 / 2) := by
  rw [star_cos_zenith_eval jcB 0 0 hz_B hxr_B, Real.sin_zero, Real.cos_zero]
  have hg0 : localMeanSiderealTime jcB 0 = greenwichMeanSiderealTime jcB := by
    rw [localMeanSiderealTime]; ring
  rw [hg0]
  have h1 := mul_bounds (Real.cos (sunEclipticLongitude jcB))
    (Real.cos (greenwichMeanSiderealTime jcB))
    0.180465956194 0.180465956195 (-0.181823981087) (-0.181823981086)
    (-0.032813039) (-0.032813038)
    (bnd_eclon_B).1.1 (bnd_eclon_B).1.2 (bnd_gmst_trig_B).1.1 (bnd_gmst_trig_B).1.2
    (by norm_num) (by norm_num) (by norm_num) (by norm_num)
    (by norm_num) (by norm_num) (by norm_num) (by norm_num)
  have h2 := mul_bounds
    (Real.cos (obliquityStar jcB) * Real.sin (sunEclipticLongitude jcB))
    (Real.sin (greenwichMeanSiderealTime jcB))
    (-0.902419992818) (-0.902419992816) 0.983331093732 0.983331093733
    (-0.887377639) (-0.887377638)
    (y_B_bounds).1 (y_B_bounds).2 (bnd_gmst_trig_B).2.1 (bnd_gmst_trig_B).2.2
    (by norm_num) (by norm_num) (by norm_num) (by norm_num)
    (by norm_num) (by norm_num) (by norm_num) (by norm_num)
  nlinarith [h1.2, h2.2]

lemma jcA_of_naive_datetime :
    datetimeToJulianCentury ⟨2002, 1, 1, 12, 0, 0, 0, none⟩ = jcA := by
  have h1 : daysFromCivil 2002 1 1 = 11688 := by decide
  have h2 : daysFromCivil 2000 1 1 = 10957 := by decide
  simp only [datetimeToJulianCentury, daysFrom2000, totalDays, awareDiffMicroseconds,
    replaceTzUtc, instantMicroseconds, wallMicroseconds, wallSeconds, datetime2000,
    Option.getD, h1, h2, jcA]
  norm_num

lemma jcA_of_plus12_datetime :
    datetimeToJulianCentury ⟨2002, 1, 1, 12, 0, 0, 0, some 43200⟩ = jcA := by
  have h1 : daysFromCivil 2002 1 1 = 11688 := by decide
  have h2 : daysFromCivil 2000 1 1 = 10957 := by decide
  simp only [datetimeToJulianCentury, daysFrom2000, totalDays, awareDiffMicroseconds,
    replaceTzUtc, instantMicroseconds, wallMicroseconds, wallSeconds, datetime2000,
    Option.getD, h1, h2, jcA]
  norm_num

lemma jcB_of_utc_midnight_datetime :
    datetimeToJulianCentury ⟨2002, 1, 1, 0, 0, 0, 0, some 0⟩ = jcB := by
  have h1 : daysFromCivil 2002 1 1 = 11688 := by decide
  have h2 : daysFromCivil 2000 1 1 = 10957 := by decide
  simp only [datetimeToJulianCentury, daysFrom2000, totalDays, awareDiffMicroseconds,
    replaceTzUtc, instantMicroseconds, wallMicroseconds, wallSeconds, datetime2000,
    Option.getD, h1, h2, jcB]
  norm_num

/-! ### C7: the doctest value -/

/-- C7: `cos_zenith_angle` at the naive timestamp 2002-01-01T12:00:00 with
lat=360 and lon=120 is within 1e-6 of -0.447817277 (in the exact-real model
of the formula chain); the out-of-range latitude 360 is accepted without any
validation, `cos_zenith_angle` being a total function of its inputs. -/
theorem cos_zenith_angle_doctest_value :
    |cosZenithAngle ⟨2002, 1, 1, 12, 0, 0, 0, none⟩ 120 360 - (-0.447817277)| < 1e-6 := by
  have hlat : deg2rad 360 = 2 * Real.pi := by rw [deg2rad]; ring
  rw [cosZenithAngle, jcA_of_naive_datetime, hlat,
    star_cos_zenith_eval jcA (deg2rad 120) (2 * Real.pi) hz_A hxr_A,
    Real.sin_two_pi, Real.cos_two_pi]
  have h3 := mul_bounds (Real.cos (sunEclipticLongitude jcA))
    (Real.cos (localMeanSiderealTime jcA (deg2rad 120)))
    0.189207346839 0.189207346841 0.755066225076 0.755066225158
    0.1428640771 0.1428640772
    (bnd_eclon_A).1.1 (bnd_eclon_A).1.2 (bnd_lmst120_A).1.1 (bnd_lmst120_A).1.2
    (by norm_num) (by norm_num) (by norm_num) (by norm_num)
    (by norm_num) (by norm_num) (by norm_num) (by norm_num)
  have h4 := mul_bounds
    (Real.cos (obliquityStar jcA) * Real.sin (sunEclipticLongitude jcA))
    (Real.sin (localMeanSiderealTime jcA (deg2rad 120)))
    (-0.900911582024) (-0.90091158202) 0.655648530522 0.655648530604
    (-0.590681355) (-0.5906813548)
    (y_A_bounds).1 (y_A_bounds).2 (bnd_lmst120_A).2.1 (bnd_lmst120_A).2.2
    (by norm_num) (by norm_num) (by norm_num) (by norm_num)
    (by norm_num) (by norm_num) (by norm_num) (by norm_num)
  rw [abs_lt]
  constructor <;> nlinarith [h3.1, h3.2, h4.1, h4.2]

/-! ### C1 counterexample, and C8 -/

/-- C1 counterexample: for the aware timestamp 2002-01-01T12:00:00+12:00
(physical instant 2002-01-01T00:00:00 UTC, epoch seconds 1009843200) and
lon = lat = 0, the two entry points do not agree to within 1e-6: the
calendar path discards the +12:00 offset and evaluates the sun half a day
later than the timestamp path, putting it on the opposite side of the sky. -/
theorem entry_points_disagree_with_nonutc_offset :
    ¬ (|cosZenithAngle ⟨2002, 1, 1, 12, 0, 0, 0, some 43200⟩ 0 0 -
        cosZenithAngleFromTimestamp
          (epochSeconds ⟨2002, 1, 1, 12, 0, 0, 0, some 43200⟩) 0 0| ≤ 1e-6) := by
  have h1 : daysFromCivil 2002 1 1 = 11688 := by decide
  have hts : epochSeconds ⟨2002, 1, 1, 12, 0, 0, 0, some 43200⟩ = 1009843200 := by
    simp only [epochSeconds, instantMicroseconds, wallMicroseconds, wallSeconds,
      Option.getD, h1]
    norm_num
  have hcB : timestampToJulianCentury 1009843200 = jcB := by
    rw [timestampToJulianCentury, TIMESTAMP_2000, jcB]
    norm_num
  have hdeg0 : deg2rad 0 = 0 := by rw [deg2rad]; ring
  rw [not_le, cosZenithAngle, cosZenithAngleFromTimestamp, jcA_of_plus12_datetime, hts,
    hcB, hdeg0]
  have hA := starCosZenith_A_lon0_gt
  have hB := starCosZenith_B_lon0_lt
  calc (1e-6 : ℝ) < 1 := by norm_num
    _ < starCosZenith jcA 0 0 - starCosZenith jcB 0 0 := by linarith
    _ ≤ |starCosZenith jcA 0 0 - starCosZenith jcB 0 0| := le_abs_self _

/-- C8: `cos_zenith_angle` replaces the tzinfo of a scalar datetime by UTC,
reading the wall-clock fields as UTC (the output only depends on the
wall-clock fields), and consequently two aware datetimes denoting the same
physical instant in different timezones can yield different results. -/
theorem aware_datetime_offset_discarded :
    (∀ (t : Datetime) (lon lat : ℝ),
      cosZenithAngle t lon lat = cosZenithAngle (replaceTzUtc t) lon lat) ∧
    (∃ (t1 t2 : Datetime) (lon lat : ℝ), t1.tzOffset ≠ none ∧ t2.tzOffset ≠ none ∧
      instantMicroseconds t1 = instantMicroseconds t2 ∧
      cosZenithAngle t1 lon lat ≠ cosZenithAngle t2 lon lat) := by
  constructor
  · exact fun t lon lat => rfl
  · refine ⟨⟨2002, 1, 1, 12, 0, 0, 0, some 43200⟩, ⟨2002, 1, 1, 0, 0, 0, 0, some 0⟩,
      0, 0, by simp, by simp, by decide, ?_⟩
    have hdeg0 : deg2rad 0 = 0 := by rw [deg2rad]; ring
    rw [cosZenithAngle, cosZenithAngle, jcA_of_plus12_datetime,
      jcB_of_utc_midnight_datetime, hdeg0]
    intro heq
    have hA := starCosZenith_A_lon0_gt
    have hB := starCosZenith_B_lon0_lt
    rw [heq] at hA
    linarith

end ZenithAngle
